import Mathlib

/-!
Verification of `src/simple_data_catalog_generator/create_policy_page.py`.

The module reads ODRL policy resources from an RDF graph (queried through
rdflib) and renders one AsciiDoc page per policy.  We embed the graph as a
list of (subject, predicate, object) triples over plain strings, the rdflib
query methods used by the code (`subjects`, `objects`, `value`) as list
operations, and the two functions of the module (`_format_odrl_section`,
`create_policy_page`) as Lean functions.  The external collaborator
`write_file` is modelled by recording each call it would receive, so
`create_policy_page` returns the list of writer calls in order.
-/

/-- An RDF triple; nodes (URIRefs and literals alike) are modelled as the
strings rdflib's `str()` would produce for them. -/
structure Triple where
  subj : String
  pred : String
  obj : String
deriving DecidableEq, Repr

/-- The RDF graph: a collection of triples, in store order. -/
abbrev Graph := List Triple

/-- The ODRL namespace of the source: `ODRL = Namespace("http://www.w3.org/ns/odrl/2/")`. -/
def odrl (t : String) : String := "http://www.w3.org/ns/odrl/2/" ++ t

def odrl_Policy : String := odrl "Policy"
def odrl_permission : String := odrl "permission"
def odrl_obligation : String := odrl "obligation"
def odrl_prohibition : String := odrl "prohibition"
def odrl_action : String := odrl "action"
def odrl_assignee : String := odrl "assignee"

/-- rdflib's `RDF.type`. -/
def rdf_type : String := "http://www.w3.org/1999/02/22-rdf-syntax-ns#type"

/-- rdflib's `DCTERMS.title`. -/
def dcterms_title : String := "http://purl.org/dc/terms/title"

/-- rdflib's `DCTERMS.description`. -/
def dcterms_description : String := "http://purl.org/dc/terms/description"

/-- rdflib `graph.objects(s, p)`: all objects of triples with subject `s`
and predicate `p`, in store order. -/
def Graph.objectsOf (g : Graph) (s p : String) : List String :=
  (g.filter (fun t => t.subj == s && t.pred == p)).map Triple.obj

/-- rdflib `graph.value(s, p)`: one object of a matching triple, or `None`
when there is none (the code never relies on which one is picked when
several match; we take the first in store order). -/
def Graph.valueOf (g : Graph) (s p : String) : Option String :=
  (g.objectsOf s p).head?

/-- rdflib `graph.subjects(p, o)`: all subjects of triples with predicate
`p` and object `o`, in store order. -/
def Graph.subjectsOf (g : Graph) (p o : String) : List String :=
  (g.filter (fun t => t.pred == p && t.obj == o)).map Triple.subj

/-- Python `str(x)` applied to an `Optional` node: `str(None)` is the
string `"None"`, which is exactly the sentinel the source compares
against. -/
def pyStr : Option String → String
  | none => "None"
  | some s => s

/-- Python `set(...)` accumulation of `policy_uris`: one entry per distinct
element (iteration order of a Python set is unspecified; we keep first
occurrences, which no claim depends on). -/
def pySetAux : List String → List String → List String
  | _, [] => []
  | seen, x :: xs =>
      if x ∈ seen then pySetAux seen xs else x :: pySetAux (x :: seen) xs

def pySet (l : List String) : List String := pySetAux [] l

/-- Python `descr.replace("|", "\\|")` on the character list: the pattern
is the single character `|`, so Python's left-to-right substring
replacement is exactly the character-wise rewrite of each `|` to `\|`. -/
def escapePipesL : List Char → List Char
  | [] => []
  | c :: cs => if c = '|' then '\\' :: '|' :: escapePipesL cs else c :: escapePipesL cs

/-- The source's `descr.replace("|", "\\|")`. -/
def escapePipes (s : String) : String := String.mk (escapePipesL s.data)

/-- One table row datum, as the source's tuple `(uid, descr, action, assignees)`. -/
abbrev Row := String × String × String × List String

/-- The loop body of `_format_odrl_section`: Python
`", ".join(assignees) if assignees else ""`. -/
def assignee_join (assignees : List String) : String :=
  match assignees with
  | [] => ""
  | _ :: _ => String.intercalate ", " assignees

/-- One iteration of the table loop of `_format_odrl_section`:
`table += f"| {uid} | {descr} | {action} | {assignee_str}\n"` after the
escape of `descr`. -/
def format_odrl_row (r : Row) : String :=
  "| " ++ r.1 ++ " | " ++ escapePipes r.2.1 ++ " | " ++ r.2.2.1 ++ " | "
    ++ assignee_join r.2.2.2 ++ "\n"

/-- Python `section_name.lower()`: lowercase the string character by
character (the section names are plain ASCII words, on which Python's
`lower` is exactly the per-character lowering). -/
def pyLower (s : String) : String := String.mk (s.data.map Char.toLower)

/-- The source's `_format_odrl_section(section_name, items)`. -/
def format_odrl_section (section_name : String) (items : List Row) : String :=
  match items with
  | [] => "*No " ++ pyLower section_name ++ " defined.*\n\n"
  | _ :: _ =>
      let header := "." ++ section_name ++ "\n|===\n| UID | Description | Action | Assignee(s)\n\n"
      (items.foldl (fun table r => table ++ format_odrl_row r) header) ++ "|===\n\n"

/-- The per-rule extraction the source repeats for permissions, obligations
and prohibitions: `uid = str(rule)`,
`descr = str(graph.value(rule, DCTERMS.description) or "")`,
`action = str(graph.value(rule, ODRL.action) or "")`,
`assignees = [str(a) for a in graph.objects(rule, ODRL.assignee)]`.
A `None` (and likewise an empty literal) under `or ""` yields `""`. -/
def extractRule (g : Graph) (rule : String) : Row :=
  (rule,
   (g.valueOf rule dcterms_description).getD "",
   (g.valueOf rule odrl_action).getD "",
   g.objectsOf rule odrl_assignee)

/-- The title resolution of the loop:
`title = str(graph.value(policy, DCTERMS.title))` followed by
`if title is None or title == "None": title = str(policy)`.  The first
disjunct is vacuous (`str` never returns `None`), so only the
`"None"`-sentinel comparison remains. -/
def policy_title (g : Graph) (policy : String) : String :=
  let title := pyStr (g.valueOf policy dcterms_title)
  if title = "None" then policy else title

/-- The description resolution of the loop:
`description = str(graph.value(policy, DCTERMS.description))` followed by
`description = "" if description in (None, "None") else description`. -/
def policy_description (g : Graph) (policy : String) : String :=
  let d := pyStr (g.valueOf policy dcterms_description)
  if d = "None" then "" else d

/-- The conditional append `if description: adoc += f"{description}\n\n"`:
appending this fragment to `adoc` is the same as the source's branch,
because appending the empty string is the identity. -/
def description_paragraph (description : String) : String :=
  if description = "" then "" else description ++ "\n\n"

/-- The page string built for one `policy` inside the loop of
`create_policy_page`: heading, optional description paragraph, then the
three sections in fixed order. -/
def build_policy_adoc (g : Graph) (policy : String) : String :=
  "= " ++ policy_title g policy ++ "\n\n"
    ++ description_paragraph (policy_description g policy)
    ++ format_odrl_section "Permissions" ((g.objectsOf policy odrl_permission).map (extractRule g))
    ++ format_odrl_section "Obligations" ((g.objectsOf policy odrl_obligation).map (extractRule g))
    ++ format_odrl_section "Prohibitions" ((g.objectsOf policy odrl_prohibition).map (extractRule g))

/-- One call to the external `write_file` collaborator (the
`catalog_graph` argument it also receives is the input graph itself and is
not repeated here). -/
structure WriteCall where
  adoc_str : String
  resource : String
  output_dir : String
deriving DecidableEq, Repr

/-- The source's `create_policy_page(policy, catalog_graph)`: collect the
set of Policy-typed subjects, return silently when there are none,
otherwise build and write one page per policy in the set.  The `policy`
parameter is shadowed by the loop variable, exactly as in the source. -/
def create_policy_page (_policy : String) (catalog_graph : Graph) : List WriteCall :=
  let policy_uris := pySet (catalog_graph.subjectsOf rdf_type odrl_Policy)
  match policy_uris with
  | [] => []
  | _ :: _ =>
      policy_uris.map (fun p =>
        ⟨build_policy_adoc catalog_graph p, p, "modules/policy/pages/"⟩)

/-- Specification predicate: every occurrence of the delimiter `|` in the
character list is immediately preceded by a backslash, i.e. the list holds
no unescaped occurrence of the table-column delimiter. -/
inductive NoBarePipe : List Char → Prop where
  | nil : NoBarePipe []
  | esc {l : List Char} : NoBarePipe l → NoBarePipe ('\\' :: '|' :: l)
  | other {c : Char} {l : List Char} : c ≠ '|' → NoBarePipe l → NoBarePipe (c :: l)

/-- The end-to-end scenario graph: one policy with title, description and a
single fully populated permission. -/
def c1Graph : Graph :=
  [⟨"ex:policy", rdf_type, odrl_Policy⟩,
   ⟨"ex:policy", dcterms_title, "Open Information Policy"⟩,
   ⟨"ex:policy", dcterms_description, "Free to use."⟩,
   ⟨"ex:policy", odrl_permission, "ex:p1"⟩,
   ⟨"ex:p1", dcterms_description, "Read only"⟩,
   ⟨"ex:p1", odrl_action, "read"⟩,
   ⟨"ex:p1", odrl_assignee, "Data Provider"⟩]

/-- A graph whose policy links one rule that carries no description, action
or assignee triples. -/
def c6Graph : Graph :=
  [⟨"ex:pol", rdf_type, odrl_Policy⟩,
   ⟨"ex:pol", odrl_permission, "ex:r"⟩]

/-- A graph whose policy links the same rule via all three relation
predicates: permission, obligation and prohibition. -/
def c8Graph : Graph :=
  [⟨"ex:pol", rdf_type, odrl_Policy⟩,
   ⟨"ex:pol", odrl_permission, "ex:r"⟩,
   ⟨"ex:pol", odrl_obligation, "ex:r"⟩,
   ⟨"ex:pol", odrl_prohibition, "ex:r"⟩]

/-! ## Helper lemmas -/

theorem mem_pySetAux (a : String) :
    ∀ (l seen : List String), a ∈ pySetAux seen l ↔ a ∈ l ∧ a ∉ seen := by
  intro l
  induction l with
  | nil => intro seen; simp [pySetAux]
  | cons x xs ih =>
    intro seen
    by_cases hx : x ∈ seen
    · simp only [pySetAux, if_pos hx, ih seen, List.mem_cons]
      by_cases hax : a = x
      · subst hax; simp [hx]
      · simp [hax]
    · simp only [pySetAux, if_neg hx, ih (x :: seen), List.mem_cons]
      by_cases hax : a = x
      · subst hax; simp [hx]
      · simp [hax]

theorem nodup_pySetAux : ∀ (l seen : List String), (pySetAux seen l).Nodup := by
  intro l
  induction l with
  | nil => intro seen; simp [pySetAux]
  | cons x xs ih =>
    intro seen
    by_cases hx : x ∈ seen
    · simpa only [pySetAux, if_pos hx] using ih seen
    · simp only [pySetAux, if_neg hx]
      refine List.nodup_cons.mpr ⟨?_, ih (x :: seen)⟩
      intro hmem
      exact ((mem_pySetAux x xs (x :: seen)).mp hmem).2 (List.mem_cons_self x seen)

theorem mem_pySet (a : String) (l : List String) : a ∈ pySet l ↔ a ∈ l := by
  rw [pySet, mem_pySetAux]
  simp

theorem nodup_pySet (l : List String) : (pySet l).Nodup := nodup_pySetAux l []

theorem create_policy_page_resources (policy : String) (g : Graph) :
    (create_policy_page policy g).map WriteCall.resource
      = pySet (g.subjectsOf rdf_type odrl_Policy) := by
  simp only [create_policy_page]
  cases h : pySet (g.subjectsOf rdf_type odrl_Policy) with
  | nil => simp
  | cons x xs =>
    simp only [List.map_map]
    have hcomp : (WriteCall.resource ∘ fun p =>
        (⟨build_policy_adoc g p, p, "modules/policy/pages/"⟩ : WriteCall)) = id := rfl
    rw [hcomp, List.map_id]

theorem noBarePipe_escapePipesL : ∀ l : List Char, NoBarePipe (escapePipesL l) := by
  intro l
  induction l with
  | nil => exact NoBarePipe.nil
  | cons c cs ih =>
    rw [escapePipesL]
    by_cases hc : c = '|'
    · rw [if_pos hc]; exact NoBarePipe.esc ih
    · rw [if_neg hc]; exact NoBarePipe.other hc ih

theorem escapePipesL_contains :
    ∀ l : List Char, '|' ∈ l → ∃ l1 l2, escapePipesL l = l1 ++ '\\' :: '|' :: l2 := by
  intro l
  induction l with
  | nil => intro h; simp at h
  | cons c cs ih =>
    intro h
    rw [escapePipesL]
    by_cases hc : c = '|'
    · rw [if_pos hc]; exact ⟨[], escapePipesL cs, rfl⟩
    · rw [if_neg hc]
      have hmem : '|' ∈ cs := by
        rcases List.mem_cons.mp h with h1 | h1
        · exact absurd h1.symm hc
        · exact h1
      obtain ⟨l1, l2, he⟩ := ih hmem
      exact ⟨c :: l1, l2, by rw [he]; rfl⟩

theorem policy_title_none (g : Graph) (policy : String)
    (h : g.valueOf policy dcterms_title = none) : policy_title g policy = policy := by
  simp [policy_title, h, pyStr]

theorem count_map_extractRule (g : Graph) (r : String) (l : List String) :
    List.count (extractRule g r) (l.map (extractRule g)) = List.count r l := by
  induction l with
  | nil => rfl
  | cons x xs ih =>
    simp only [List.map_cons, List.count_cons, ih]
    by_cases hxr : x = r
    · subst hxr; simp
    · have hne : extractRule g x ≠ extractRule g r := fun hcontr =>
        hxr (congrArg (fun q => q.1) hcontr)
      simp [hxr, hne]

/-! ## Claims -/

/-- C1: for the graph with exactly one Policy titled "Open Information
Policy", description "Free to use.", one permission (id ex:p1, description
"Read only", action "read", assignees ["Data Provider"]), zero obligations
and zero prohibitions, `create_policy_page` writes exactly one page, whose
string is the heading line `= Open Information Policy`, the paragraph
`Free to use.`, a Permissions table whose sole row is
`| ex:p1 | Read only | read | Data Provider`, then the line
`*No obligations defined.*`, then the line `*No prohibitions defined.*`. -/
theorem c1_end_to_end :
    create_policy_page "ex:unused" c1Graph =
      [⟨"= Open Information Policy\n\nFree to use.\n\n.Permissions\n|===\n| UID | Description | Action | Assignee(s)\n\n| ex:p1 | Read only | read | Data Provider\n|===\n\n*No obligations defined.*\n\n*No prohibitions defined.*\n\n",
        "ex:policy", "modules/policy/pages/"⟩] := by
  set_option maxRecDepth 8192 in decide

/-- C2: every `|` in a rule description is escaped to `\|` before being
placed in the table row, the escaped cell contains the escaped form
whenever the description contained the delimiter and holds no unescaped
occurrence of the delimiter; in particular the description `A|B` renders
as `A\|B` in its cell of the rendered table. -/
theorem c2_description_escaping (d : String) (h : '|' ∈ d.data) :
    NoBarePipe ((escapePipes d).data)
    ∧ (∃ l1 l2, (escapePipes d).data = l1 ++ '\\' :: '|' :: l2)
    ∧ format_odrl_section "Permissions" [("ex:p1", "A|B", "read", ["Data Provider"])]
        = ".Permissions\n|===\n| UID | Description | Action | Assignee(s)\n\n| ex:p1 | A\\|B | read | Data Provider\n|===\n\n" :=
  ⟨noBarePipe_escapePipesL d.data, escapePipesL_contains d.data h, by decide⟩

/-- Witness for C2, at the description "A|B" of the spec's scenario. -/
theorem c2_witness :
    NoBarePipe ((escapePipes "A|B").data)
    ∧ (∃ l1 l2, (escapePipes "A|B").data = l1 ++ '\\' :: '|' :: l2)
    ∧ format_odrl_section "Permissions" [("ex:p1", "A|B", "read", ["Data Provider"])]
        = ".Permissions\n|===\n| UID | Description | Action | Assignee(s)\n\n| ex:p1 | A\\|B | read | Data Provider\n|===\n\n" :=
  c2_description_escaping "A|B" (by decide)

/-- C3 counterexample: the claimed placeholder (lowercased section name
with an appended `s`) would be `*No permissionss defined.*` for the
section name "Permissions", but `_format_odrl_section` emits
`*No permissions defined.*` — the lowercased name with no appended
character. -/
theorem c3_counterexample :
    ¬ (format_odrl_section "Permissions" ([] : List Row)
        = "*No " ++ pyLower "Permissions" ++ "s defined.*\n\n") := by
  decide

/-- C3 amended: for every section name, rendering an empty row list
returns exactly `*No ` ++ the lowercased section name ++ ` defined.*`
followed by a blank line; the trailing `s` of the spec's template is the
final letter of the already-plural section name, not an appended
character. -/
theorem c3_empty_section_placeholder (section_name : String) :
    format_odrl_section section_name ([] : List Row)
      = "*No " ++ pyLower section_name ++ " defined.*\n\n" := rfl

/-- C4: on a graph with zero Policy-typed subjects, `create_policy_page`
performs no writer call at all; the embedding is a total pure function, so
it returns silently with no exception or other effect. -/
theorem c4_no_policies_silent (policy : String) (g : Graph)
    (h : g.subjectsOf rdf_type odrl_Policy = []) :
    create_policy_page policy g = [] := by
  simp only [create_policy_page, h]
  rfl

/-- Witness for C4, at the empty graph. -/
theorem c4_witness : create_policy_page "ex:p" ([] : Graph) = [] :=
  c4_no_policies_silent "ex:p" [] rfl

/-- C5: the writer is invoked exactly once per distinct Policy-typed
subject of the graph (the list of written resources has no duplicates and
holds precisely the Policy subjects); every policy with zero permissions,
zero obligations and zero prohibitions — whatever its title, description
or surrounding graph — yields a page whose body after the heading and
optional description paragraph is exactly the three placeholder lines in
the fixed order Permissions, Obligations, Prohibitions; and on the
concrete one-policy zero-rule graph the single written page is exactly
those three placeholders. -/
theorem c5_one_page_per_policy (policy : String) (g : Graph) (p : String) :
    ((create_policy_page policy g).map WriteCall.resource).Nodup
    ∧ (∀ q, q ∈ (create_policy_page policy g).map WriteCall.resource
          ↔ q ∈ g.subjectsOf rdf_type odrl_Policy)
    ∧ (g.objectsOf p odrl_permission = [] ∧ g.objectsOf p odrl_obligation = []
        ∧ g.objectsOf p odrl_prohibition = [] →
        build_policy_adoc g p
          = "= " ++ policy_title g p ++ "\n\n"
              ++ description_paragraph (policy_description g p)
              ++ "*No permissions defined.*\n\n"
              ++ "*No obligations defined.*\n\n"
              ++ "*No prohibitions defined.*\n\n")
    ∧ create_policy_page "ex:other" [⟨"ex:pol2", rdf_type, odrl_Policy⟩]
        = [⟨"= ex:pol2\n\n*No permissions defined.*\n\n*No obligations defined.*\n\n*No prohibitions defined.*\n\n",
            "ex:pol2", "modules/policy/pages/"⟩] := by
  refine ⟨?_, ?_, ?_, by set_option maxRecDepth 8192 in decide⟩
  · rw [create_policy_page_resources]
    exact nodup_pySet _
  · intro q
    rw [create_policy_page_resources]
    exact mem_pySet q _
  · rintro ⟨hperm, hobl, hpro⟩
    have h1 : format_odrl_section "Permissions" ([] : List Row)
        = "*No permissions defined.*\n\n" := by decide
    have h2 : format_odrl_section "Obligations" ([] : List Row)
        = "*No obligations defined.*\n\n" := by decide
    have h3 : format_odrl_section "Prohibitions" ([] : List Row)
        = "*No prohibitions defined.*\n\n" := by decide
    simp only [build_policy_adoc, hperm, hobl, hpro, List.map_nil, h1, h2, h3]

/-- Witness for C5, at the one-policy zero-rule graph. -/
theorem c5_witness :
    ((create_policy_page "ex:other" [⟨"ex:pol2", rdf_type, odrl_Policy⟩]).map WriteCall.resource).Nodup
    ∧ (∀ q, q ∈ (create_policy_page "ex:other" [⟨"ex:pol2", rdf_type, odrl_Policy⟩]).map WriteCall.resource
          ↔ q ∈ Graph.subjectsOf [⟨"ex:pol2", rdf_type, odrl_Policy⟩] rdf_type odrl_Policy)
    ∧ build_policy_adoc [⟨"ex:pol2", rdf_type, odrl_Policy⟩] "ex:pol2"
        = "= " ++ policy_title [⟨"ex:pol2", rdf_type, odrl_Policy⟩] "ex:pol2" ++ "\n\n"
            ++ description_paragraph (policy_description [⟨"ex:pol2", rdf_type, odrl_Policy⟩] "ex:pol2")
            ++ "*No permissions defined.*\n\n"
            ++ "*No obligations defined.*\n\n"
            ++ "*No prohibitions defined.*\n\n" := by
  have h := c5_one_page_per_policy "ex:other" [⟨"ex:pol2", rdf_type, odrl_Policy⟩] "ex:pol2"
  exact ⟨h.1, h.2.1, h.2.2.1 ⟨by decide, by decide, by decide⟩⟩

/-- C6: a rule with no description literal in the graph is extracted with
the empty string (never the placeholder word "None") in the description
column, a rule with no action literal likewise in the action column —
each absence independently of the other — and the rendered table row of a
rule missing both shows the empty cells, as on the concrete one-rule
graph `c6Graph`; the embedding is total, so no error is raised for an
absent literal. -/
theorem c6_missing_literals (g : Graph) (r : String) :
    (g.valueOf r dcterms_description = none → (extractRule g r).2.1 = "")
    ∧ (g.valueOf r odrl_action = none → (extractRule g r).2.2.1 = "")
    ∧ format_odrl_section "Permissions" [extractRule c6Graph "ex:r"]
        = ".Permissions\n|===\n| UID | Description | Action | Assignee(s)\n\n| ex:r |  |  | \n|===\n\n" := by
  refine ⟨fun hd => ?_, fun ha => ?_, by decide⟩
  · simp [extractRule, hd]
  · simp [extractRule, ha]

/-- Witness for C6, at the rule ex:r of `c6Graph`, which carries no
description and no action triple. -/
theorem c6_witness :
    (extractRule c6Graph "ex:r").2.1 = "" ∧ (extractRule c6Graph "ex:r").2.2.1 = ""
    ∧ format_odrl_section "Permissions" [extractRule c6Graph "ex:r"]
        = ".Permissions\n|===\n| UID | Description | Action | Assignee(s)\n\n| ex:r |  |  | \n|===\n\n" := by
  have h := c6_missing_literals c6Graph "ex:r"
  exact ⟨h.1 (by decide), h.2.1 (by decide), h.2.2⟩

/-- C7: for a policy with no dcterms:title literal, the generated page
begins with the level-1 heading `= ` followed by the policy's raw
identifier string. -/
theorem c7_title_fallback (g : Graph) (policy : String)
    (h : g.valueOf policy dcterms_title = none) :
    ∃ rest, build_policy_adoc g policy = "= " ++ policy ++ "\n\n" ++ rest := by
  refine ⟨description_paragraph (policy_description g policy)
      ++ format_odrl_section "Permissions" ((g.objectsOf policy odrl_permission).map (extractRule g))
      ++ format_odrl_section "Obligations" ((g.objectsOf policy odrl_obligation).map (extractRule g))
      ++ format_odrl_section "Prohibitions" ((g.objectsOf policy odrl_prohibition).map (extractRule g)), ?_⟩
  rw [build_policy_adoc, policy_title_none g policy h]
  simp [String.append_assoc]

/-- Witness for C7, at a one-policy graph with no title triple. -/
theorem c7_witness :
    ∃ rest, build_policy_adoc [⟨"ex:pol", rdf_type, odrl_Policy⟩] "ex:pol"
      = "= " ++ "ex:pol" ++ "\n\n" ++ rest :=
  c7_title_fallback [⟨"ex:pol", rdf_type, odrl_Policy⟩] "ex:pol" (by decide)

/-- C8: the three rule categories are traversed independently and are not
deduplicated against each other: for each of the three relation
predicates — odrl:permission, odrl:obligation, odrl:prohibition — a rule
linked once from the policy via that predicate appears exactly once in
the rendered row list of that category, irrespective of its links via the
other predicates; so a rule linked via more than one predicate appears
once in each corresponding list.  The three lists are literally the ones
`build_policy_adoc` passes to the section renderer. -/
theorem c8_rule_in_each_category (g : Graph) (pol r : String) :
    (List.count r (g.objectsOf pol odrl_permission) = 1 →
      List.count (extractRule g r) ((g.objectsOf pol odrl_permission).map (extractRule g)) = 1)
    ∧ (List.count r (g.objectsOf pol odrl_obligation) = 1 →
      List.count (extractRule g r) ((g.objectsOf pol odrl_obligation).map (extractRule g)) = 1)
    ∧ (List.count r (g.objectsOf pol odrl_prohibition) = 1 →
      List.count (extractRule g r) ((g.objectsOf pol odrl_prohibition).map (extractRule g)) = 1) :=
  ⟨fun hp => by rw [count_map_extractRule]; exact hp,
   fun ho => by rw [count_map_extractRule]; exact ho,
   fun hq => by rw [count_map_extractRule]; exact hq⟩

/-- Witness for C8, at the graph `c8Graph` where ex:r is at once a
permission, an obligation and a prohibition of ex:pol. -/
theorem c8_witness :
    List.count (extractRule c8Graph "ex:r")
        ((c8Graph.objectsOf "ex:pol" odrl_permission).map (extractRule c8Graph)) = 1
    ∧ List.count (extractRule c8Graph "ex:r")
        ((c8Graph.objectsOf "ex:pol" odrl_obligation).map (extractRule c8Graph)) = 1
    ∧ List.count (extractRule c8Graph "ex:r")
        ((c8Graph.objectsOf "ex:pol" odrl_prohibition).map (extractRule c8Graph)) = 1 := by
  have h := c8_rule_in_each_category c8Graph "ex:pol" "ex:r"
  exact ⟨h.1 (by decide), h.2.1 (by decide), h.2.2 (by decide)⟩

/-- C9: the `policy` argument of `create_policy_page` has no influence on
the produced writer calls: the function immediately re-enumerates all
Policy-typed subjects of the graph, shadowing the parameter. -/
theorem c9_policy_argument_ignored (g : Graph) (p1 p2 : String) :
    create_policy_page p1 g = create_policy_page p2 g := rfl

/-- C10: the delimiter escape is applied only to the description column: a
row whose uid, action and assignee strings all contain `|` renders those
cells with the bare, unescaped delimiter, while the description cell is
escaped. -/
theorem c10_escape_only_description :
    format_odrl_section "Permissions" [("a|b", "d|e", "x|y", ["u|v"])]
      = ".Permissions\n|===\n| UID | Description | Action | Assignee(s)\n\n| a|b | d\\|e | x|y | u|v\n|===\n\n" := by
  decide
